import Mathlib

set_option maxRecDepth 100000

/-!
Verification of the xml2gpui tree builder, style rule engine and element
renderer (crates/xml2gpui/src/tree.rs), as a shallow embedding in Lean.

Modelling conventions:
* Rust `String`/`&str` values are modelled as Lean `String` (a structure
  over `List Char`); slicing is modelled at character granularity (all
  inputs relevant to the statements below are ASCII, where byte and
  character indices coincide).
* `f32` magnitudes are modelled as exact rationals (`ℚ`); every concrete
  magnitude appearing in a statement below is exactly representable.
* Panics (`unwrap`, out-of-range slicing) are modelled by `Option`, with
  `none` meaning the computation aborts.
* The event stream delivered by the `quick_xml` reader is modelled by the
  `XmlEvent` type; the reader is configured (tree.rs lines 18-21) with
  `expand_empty_elements(true)`, which is modelled by `expandEmptyElements`,
  and `trim_text(true)`, so `text` events carry already-trimmed text and
  attribute values arrive already unescaped (the reader's job).
-/

/-- `Component` mirrors `struct Component` of tree.rs (elem, text,
attributes in document order with duplicates kept, children in document
order). -/
inductive Component where
  | mk (elem : String) (text : Option String) (attributes : List (String × String))
      (children : List Component)

def Component.elem : Component → String
  | .mk e _ _ _ => e

def Component.text : Component → Option String
  | .mk _ t _ _ => t

def Component.attributes : Component → List (String × String)
  | .mk _ _ a _ => a

def Component.children : Component → List Component
  | .mk _ _ _ c => c

/-- `parent.children.push(c)` of the Rust code: append `c` as last child. -/
def Component.pushChild : Component → Component → Component
  | .mk e t a ch, c => .mk e t a (ch ++ [c])

/-- `parent.text = Some(s)`: replace the text of a node (last text run wins). -/
def Component.setText : Component → String → Component
  | .mk e _ a ch, s => .mk e (some s) a ch

/-- Structural events delivered by the reader to the tree-builder loop
(tree.rs lines 26-85).  `start`/`empty` carry the raw qualified element
name and the attribute pairs (keys raw, values already decoded and
unescaped by the reader); `close` is `Event::End`, `text` a trimmed text
run, `other` covers the events the loop ignores (comments, PIs, ...). -/
inductive XmlEvent where
  | start (name : String) (attrs : List (String × String))
  | empty (name : String) (attrs : List (String × String))
  | close
  | text (s : String)
  | other
deriving DecidableEq, Repr

/-- `local_name()` of quick_xml: everything up to and including the first
`:` is removed from a qualified name. -/
def localName (s : String) : String :=
  match s.data.dropWhile (fun c => c ≠ ':') with
  | [] => s
  | _ :: rest => ⟨rest⟩

/-- The `Component` built on `Event::Start`/`Event::Empty` (tree.rs lines
30-54): tag is the local element name, attribute keys are local names,
`text = None`, no children.  Note: quick_xml does not change the case of
names, so the tag keeps the case of the input. -/
def mkComponent (name : String) (attrs : List (String × String)) : Component :=
  .mk (localName name) none (attrs.map (fun p => (localName p.1, p.2))) []

/-- One iteration of the tree-builder loop (tree.rs lines 26-85) acting on
the stack of in-progress nodes.  The stack is a list with the *top*
(innermost, most recently pushed) node first, mirroring `Vec` push/pop at
the back and `last_mut`. -/
def parseStep (stack : List Component) : XmlEvent → List Component
  | .start name attrs => mkComponent name attrs :: stack
  | .empty name attrs =>
      match stack with
      | parent :: rest => parent.pushChild (mkComponent name attrs) :: rest
      | [] => []
  | .close =>
      if stack.length > 1 then
        match stack with
        | top :: parent :: rest => parent.pushChild top :: rest
        | _ => stack
      else stack
  | .text s =>
      match stack with
      | top :: rest => top.setText s :: rest
      | [] => []
  | .other => stack

/-- The sentinel returned when the final pop finds an empty stack
(tree.rs lines 87-92). -/
def errorComponent : Component :=
  .mk "error" (some "error") [] []

/-- `parse_xml` (tree.rs lines 16-93), expressed over the event stream the
reader delivers: fold the loop body over the events, then
`stack.pop().unwrap_or_else(error sentinel)` — `Vec::pop` takes the back
of the vector, i.e. the top of the stack. -/
def parse_xml (events : List XmlEvent) : Component :=
  match events.foldl parseStep [] with
  | [] => errorComponent
  | top :: _ => top

/-- `expand_empty_elements(true)` (tree.rs line 19): the reader replaces
every self-closing element by a `Start` event immediately followed by an
`End` event before the builder sees it. -/
def expandEmptyElements (events : List XmlEvent) : List XmlEvent :=
  events.flatMap fun e =>
    match e with
    | .empty name attrs => [.start name attrs, .close]
    | e => [e]

/-- The colour produced by `hex_to_rgba` (tree.rs lines 169-183), recorded
as its four 8-bit components (the Rust code packs them into a `u32` and
`gpui::rgba` unpacks them again; the packing round-trips as each
component is < 256). -/
structure Rgba where
  r : Nat
  g : Nat
  b : Nat
  a : Nat
deriving DecidableEq, Repr

/-- `gpui::AbsoluteLength`: either device pixels or rems, with the `f32`
magnitude modelled as an exact rational. -/
inductive AbsoluteLength where
  | Pixels (v : ℚ)
  | Rems (v : ℚ)
deriving DecidableEq, Repr

/-- Rust string slicing `&s[a..b]`: panics (`none`) when `b` exceeds the
length, otherwise the half-open range of characters. -/
def strSlice (s : List Char) (a b : Nat) : Option (List Char) :=
  if b ≤ s.length then some ((s.drop a).take (b - a)) else none

def hexDigitVal (c : Char) : Nat :=
  if c.isDigit then c.toNat - '0'.toNat
  else if 'a' ≤ c ∧ c ≤ 'f' then c.toNat - 'a'.toNat + 10
  else c.toNat - 'A'.toNat + 10

def isHexDigitChar (c : Char) : Bool :=
  c.isDigit || ('a' ≤ c && c ≤ 'f') || ('A' ≤ c && c ≤ 'F')

/-- The value of a base-16 digit string. -/
def hexVal (cs : List Char) : Nat :=
  cs.foldl (fun n c => 16 * n + hexDigitVal c) 0

def radix16Digits (ds : List Char) : Option Nat :=
  if ds ≠ [] ∧ ds.all isHexDigitChar then some (hexVal ds) else none

/-- `u32::from_str_radix(s, 16)`: an optional leading `+` sign followed by
at least one base-16 digit; anything else is an error (`none`).  (A `-`
sign is rejected by the unsigned parser, and the two-character slices used
below cannot overflow `u32`.) -/
def fromStrRadix16 (s : List Char) : Option Nat :=
  radix16Digits (if s.head? = some '+' then s.tail else s)

/-- The slicing-and-parsing body of `hex_to_rgba` on the already-stripped
hex string. -/
def hexCore (hex : List Char) : Option Rgba := do
  let r ← strSlice hex 0 2 >>= fromStrRadix16
  let g ← strSlice hex 2 4 >>= fromStrRadix16
  let b ← strSlice hex 4 6 >>= fromStrRadix16
  let a ← if hex.length = 8 then strSlice hex 6 8 >>= fromStrRadix16 else some 255
  some ⟨r, g, b, a⟩

/-- `hex_to_rgba` (tree.rs lines 169-183): strip all leading `#`, parse
characters 0-2, 2-4, 4-6 as red, green, blue; if exactly 8 characters
remain, parse 6-8 as alpha, else alpha is 255.  `none` models the panic on
a failed slice or a failed `from_str_radix`. -/
def hex_to_rgba (s : String) : Option Rgba :=
  hexCore (s.data.dropWhile (fun c => c = '#'))

/-- The value of a digit string as a natural number (base 10). -/
def digitsVal (cs : List Char) : Nat :=
  cs.foldl (fun n c => 10 * n + (c.toNat - '0'.toNat)) 0

/-- `str::parse::<f32>` restricted to strings of decimal digits and dots
(the only alphabet `extract_length_from_class_name` feeds it): succeeds
iff the string has at least one digit and at most one dot, and then
denotes the usual decimal value. -/
def parseDecimal (cs : List Char) : Option ℚ :=
  if cs.any (fun c => c.isDigit) && cs.all (fun c => c.isDigit || c == '.')
      && decide (cs.count '.' ≤ 1) then
    let intPart := cs.takeWhile (fun c => c ≠ '.')
    let fracPart := (cs.dropWhile (fun c => c ≠ '.')).drop 1
    some ((digitsVal intPart : ℚ) + (digitsVal fracPart : ℚ) / (10 : ℚ) ^ fracPart.length)
  else none

/-- `extract_length_from_class_name` (tree.rs lines 336-355): the numeric
part skips leading characters that are neither digits nor `.`, then takes
the run of digits/dots; the unit part drops the leading run of digits/dots
(keeping everything from the first other character on); magnitude is the
parsed numeric part or 0 (`unwrap_or_default`); unit `px` gives pixels,
`rem` gives rems, anything else 0 pixels. -/
def extract_length_from_class_name (s : String) : AbsoluteLength :=
  let cs := s.data
  let numericPart := (cs.dropWhile (fun c => !c.isDigit && c != '.')).takeWhile
    (fun c => c.isDigit || c == '.')
  let unitPart := cs.dropWhile (fun c => c.isDigit || c == '.')
  let v := (parseDecimal numericPart).getD 0
  if unitPart = "px".data then AbsoluteLength.Pixels v
  else if unitPart = "rem".data then AbsoluteLength.Rems v
  else AbsoluteLength.Pixels 0

/-- The length-parsing rule in the words of the amended claim C3: the
magnitude is parsed from the maximal *leading* run of digits and dots
(denoting its decimal value when it has at least one digit and at most
one dot, and 0 otherwise), the unit is the remainder after that run;
`px` gives pixels, `rem` gives rems (including a 0 magnitude when the
numeric part is unparsable), any other unit gives 0 pixels. -/
def extract_length_spec_amended (s : String) : AbsoluteLength :=
  let cs := s.data
  let run := cs.takeWhile (fun c => c.isDigit || c == '.')
  let unitPart := cs.dropWhile (fun c => c.isDigit || c == '.')
  let v := (parseDecimal run).getD 0
  if unitPart = "px".data then AbsoluteLength.Pixels v
  else if unitPart = "rem".data then AbsoluteLength.Rems v
  else AbsoluteLength.Pixels 0

/-- The exact-match static table: every literal token of the
`tailwind_to_gpui!` invocation in tree.rs (lines 203-274), in source
order.  The macro (xml2gpui_macros) expands these to one `match` arm per
token, each calling exactly one dedicated style method. -/
def staticClasses : List String := [
    "flex", "flex-grow", "flex-shrink", "flex-shrink-0", "flex-wrap", "flex-wrap-reverse",
    "flex-nowrap", "content-normal", "content-center", "content-start", "content-end", "content-between",
    "content-around", "content-evenly", "content-stretch", "block", "absolute", "relative",
    "visible", "invisible", "overflow-hidden", "overflow-x-hidden", "overflow-y-hidden", "items-start",
    "items-end", "items-center", "top-0", "top-1", "top-2", "top-3",
    "top-4", "top-5", "top-6", "top-8", "top-10", "top-12",
    "top-16", "top-20", "top-24", "top-32", "top-40", "top-48",
    "top-56", "top-64", "top-72", "top-80", "top-96", "top-auto",
    "top-full", "top-1/2", "top-1/3", "top-2/3", "top-1/4", "top-2/4",
    "top-3/4", "top-1/5", "top-2/5", "top-3/5", "right-0", "right-1",
    "right-2", "right-3", "right-4", "right-5", "right-6", "right-8",
    "right-10", "right-12", "right-16", "right-20", "right-24", "right-32",
    "right-40", "right-48", "right-56", "right-64", "right-72", "right-80",
    "right-96", "right-auto", "right-full", "right-1/2", "right-1/3", "right-2/3",
    "right-1/4", "right-2/4", "right-3/4", "right-1/5", "right-2/5", "right-3/5",
    "bottom-0", "bottom-1", "bottom-2", "bottom-3", "bottom-4", "bottom-5",
    "bottom-6", "bottom-8", "bottom-10", "bottom-12", "bottom-16", "bottom-20",
    "bottom-24", "bottom-32", "bottom-40", "bottom-48", "bottom-56", "bottom-64",
    "bottom-72", "bottom-80", "bottom-96", "bottom-auto", "bottom-full", "bottom-1/2",
    "bottom-1/3", "bottom-2/3", "bottom-1/4", "bottom-2/4", "bottom-3/4", "bottom-1/5",
    "bottom-2/5", "bottom-3/5", "left-0", "left-1", "left-2", "left-3",
    "left-4", "left-5", "left-6", "left-8", "left-10", "left-12",
    "left-16", "left-20", "left-24", "left-32", "left-40", "left-48",
    "left-56", "left-64", "left-72", "left-80", "left-96", "left-auto",
    "left-full", "left-1/2", "left-1/3", "left-2/3", "left-1/4", "left-2/4",
    "left-3/4", "left-1/5", "left-2/5", "left-3/5", "cursor-default", "cursor-pointer",
    "cursor-text", "cursor-move", "cursor-not-allowed", "cursor-context-menu", "cursor-crosshair", "cursor-vertical-text",
    "cursor-alias", "cursor-copy", "cursor-no-drop", "cursor-grab", "cursor-grabbing", "cursor-col-resize",
    "cursor-row-resize", "cursor-n-resize", "cursor-e-resize", "cursor-s-resize", "cursor-w-resize", "justify-center",
    "justify-between", "justify-around", "justify-start", "justify-end", "flex-col", "flex-row",
    "flex-col_reverse", "flex-row_reverse", "flex-1", "flex-auto", "flex-initial", "flex-none",
    "shadow-sm", "shadow-md", "shadow-lg", "shadow-xl", "shadow-2xl", "h-0",
    "h-1", "h-2", "h-3", "h-4", "h-5", "h-6",
    "h-8", "h-10", "h-12", "h-16", "h-20", "h-24",
    "h-32", "h-40", "h-48", "h-56", "h-64", "h-72",
    "h-80", "h-96", "h-auto", "h-full", "h-1/2", "h-1/3",
    "h-2/3", "h-1/4", "h-2/4", "h-3/4", "h-1/5", "h-2/5",
    "h-3/5", "h-4/5", "h-1/6", "h-5/6", "h-1/12", "w-0",
    "w-1", "w-2", "w-3", "w-4", "w-5", "w-6",
    "w-8", "w-10", "w-12", "w-16", "w-20", "w-24",
    "w-32", "w-40", "w-48", "w-56", "w-64", "w-72",
    "w-80", "w-96", "w-auto", "w-full", "w-1/2", "w-1/3",
    "w-2/3", "w-1/4", "w-2/4", "w-3/4", "w-1/5", "w-2/5",
    "w-3/5", "w-4/5", "w-1/6", "w-5/6", "w-1/12", "min-h-0",
    "min-h-full", "min-w-0", "min-w-full", "max-h-0", "max-h-full", "max-w-0",
    "max-w-full", "p-0", "p-1", "p-2", "p-3", "p-4",
    "p-5", "p-6", "p-8", "p-10", "p-12", "p-16",
    "p-20", "p-24", "p-32", "p-40", "p-48", "p-56",
    "p-64", "p-72", "p-80", "p-96", "p-full", "p-1/2",
    "p-1/3", "p-2/3", "p-1/4", "p-2/4", "p-3/4", "p-1/5",
    "p-2/5", "p-3/5", "p-4/5", "p-1/6", "p-5/6", "p-1/12",
    "px-0", "px-1", "px-2", "px-3", "px-4", "px-5",
    "px-6", "px-8", "px-10", "px-12", "px-16", "px-20",
    "px-24", "px-32", "px-40", "px-48", "px-56", "px-64",
    "px-72", "px-80", "px-96", "px-full", "px-1/2", "px-1/3",
    "px-2/3", "px-1/4", "px-2/4", "px-3/4", "px-1/5", "px-2/5",
    "px-3/5", "px-4/5", "px-1/6", "px-5/6", "px-1/12", "py-0",
    "py-1", "py-2", "py-3", "py-4", "py-5", "py-6",
    "py-8", "py-10", "py-12", "py-16", "py-20", "py-24",
    "py-32", "py-40", "py-48", "py-56", "py-64", "py-72",
    "py-80", "py-96", "py-full", "py-1/2", "py-1/3", "py-2/3",
    "py-1/4", "py-2/4", "py-3/4", "py-1/5", "py-2/5", "py-3/5",
    "py-4/5", "py-1/6", "py-5/6", "py-1/12", "pt-0", "pt-1",
    "pt-2", "pt-3", "pt-4", "pt-5", "pt-6", "pt-8",
    "pt-10", "pt-12", "pt-16", "pt-20", "pt-24", "pt-32",
    "pt-40", "pt-48", "pt-56", "pt-64", "pt-72", "pt-80",
    "pt-96", "pt-full", "pt-1/2", "pt-1/3", "pt-2/3", "pt-1/4",
    "pt-2/4", "pt-3/4", "pt-1/5", "pt-2/5", "pt-3/5", "pt-4/5",
    "pt-1/6", "pt-5/6", "pt-1/12", "pr-0", "pr-1", "pr-2",
    "pr-3", "pr-4", "pr-5", "pr-6", "pr-8", "pr-10",
    "pr-12", "pr-16", "pr-20", "pr-24", "pr-32", "pr-40",
    "pr-48", "pr-56", "pr-64", "pr-72", "pr-80", "pr-96",
    "pr-full", "pr-1/2", "pr-1/3", "pr-2/3", "pr-1/4", "pr-2/4",
    "pr-3/4", "pr-1/5", "pr-2/5", "pr-3/5", "pr-4/5", "pr-1/6",
    "pr-5/6", "pr-1/12", "pb-0", "pb-1", "pb-2", "pb-3",
    "pb-4", "pb-5", "pb-6", "pb-8", "pb-10", "pb-12",
    "pb-16", "pb-20", "pb-24", "pb-32", "pb-40", "pb-48",
    "pb-56", "pb-64", "pb-72", "pb-80", "pb-96", "pb-full",
    "pb-1/2", "pb-1/3", "pb-2/3", "pb-1/4", "pb-2/4", "pb-3/4",
    "pb-1/5", "pb-2/5", "pb-3/5", "pb-4/5", "pb-1/6", "pb-5/6",
    "pb-1/12", "pl-0", "pl-1", "pl-2", "pl-3", "pl-4",
    "pl-5", "pl-6", "pl-8", "pl-10", "pl-12", "pl-16",
    "pl-20", "pl-24", "pl-32", "pl-40", "pl-48", "pl-56",
    "pl-64", "pl-72", "pl-80", "pl-96", "pl-full", "pl-1/2",
    "pl-1/3", "pl-2/3", "pl-1/4", "pl-2/4", "pl-3/4", "pl-1/5",
    "pl-2/5", "pl-3/5", "pl-4/5", "pl-1/6", "pl-5/6", "pl-1/12",
    "m-0", "m-1", "m-2", "m-3", "m-4", "m-5",
    "m-6", "m-8", "m-10", "m-12", "m-16", "m-20",
    "m-24", "m-32", "m-40", "m-48", "m-56", "m-64",
    "m-72", "m-80", "m-96", "m-auto", "m-full", "m-1/2",
    "m-1/3", "m-2/3", "m-1/4", "m-2/4", "m-3/4", "m-1/5",
    "m-2/5", "m-3/5", "m-4/5", "m-1/6", "m-5/6", "m-1/12",
    "mx-0", "mx-1", "mx-2", "mx-3", "mx-4", "mx-5",
    "mx-6", "mx-8", "mx-10", "mx-12", "mx-16", "mx-20",
    "mx-24", "mx-32", "mx-40", "mx-48", "mx-56", "mx-64",
    "mx-72", "mx-80", "mx-96", "mx-auto", "mx-full", "mx-1/2",
    "mx-1/3", "mx-2/3", "mx-1/4", "mx-2/4", "mx-3/4", "mx-1/5",
    "mx-2/5", "mx-3/5", "mx-4/5", "mx-1/6", "mx-5/6", "mx-1/12",
    "my-0", "my-1", "my-2", "my-3", "my-4", "my-5",
    "my-6", "my-8", "my-10", "my-12", "my-16", "my-20",
    "my-24", "my-32", "my-40", "my-48", "my-56", "my-64",
    "my-72", "my-80", "my-96", "my-auto", "my-full", "my-1/2",
    "my-1/3", "my-2/3", "my-1/4", "my-2/4", "my-3/4", "my-1/5",
    "my-2/5", "my-3/5", "my-4/5", "my-1/6", "my-5/6", "my-1/12",
    "mt-0", "mt-1", "mt-2", "mt-3", "mt-4", "mt-5",
    "mt-6", "mt-8", "mt-10", "mt-12", "mt-16", "mt-20",
    "mt-24", "mt-32", "mt-40", "mt-48", "mt-56", "mt-64",
    "mt-72", "mt-80", "mt-96", "mt-auto", "mt-full", "mt-1/2",
    "mt-1/3", "mt-2/3", "mt-1/4", "mt-2/4", "mt-3/4", "mt-1/5",
    "mt-2/5", "mt-3/5", "mt-4/5", "mt-1/6", "mt-5/6", "mt-1/12",
    "mr-0", "mr-1", "mr-2", "mr-3", "mr-4", "mr-5",
    "mr-6", "mr-8", "mr-10", "mr-12", "mr-16", "mr-20",
    "mr-24", "mr-32", "mr-40", "mr-48", "mr-56", "mr-64",
    "mr-72", "mr-80", "mr-96", "mr-auto", "mr-full", "mr-1/2",
    "mr-1/3", "mr-2/3", "mr-1/4", "mr-2/4", "mr-3/4", "mr-1/5",
    "mr-2/5", "mr-3/5", "mr-4/5", "mr-1/6", "mr-5/6", "mr-1/12",
    "mb-0", "mb-1", "mb-2", "mb-3", "mb-4", "mb-5",
    "mb-6", "mb-8", "mb-10", "mb-12", "mb-16", "mb-20",
    "mb-24", "mb-32", "mb-40", "mb-48", "mb-56", "mb-64",
    "mb-72", "mb-80", "mb-96", "mb-auto", "mb-full", "mb-1/2",
    "mb-1/3", "mb-2/3", "mb-1/4", "mb-2/4", "mb-3/4", "mb-1/5",
    "mb-2/5", "mb-3/5", "mb-4/5", "mb-1/6", "mb-5/6", "mb-1/12",
    "ml-0", "ml-1", "ml-2", "ml-3", "ml-4", "ml-5",
    "ml-6", "ml-8", "ml-10", "ml-12", "ml-16", "ml-20",
    "ml-24", "ml-32", "ml-40", "ml-48", "ml-56", "ml-64",
    "ml-72", "ml-80", "ml-96", "ml-auto", "ml-full", "ml-1/2",
    "ml-1/3", "ml-2/3", "ml-1/4", "ml-2/4", "ml-3/4", "ml-1/5",
    "ml-2/5", "ml-3/5", "ml-4/5", "ml-1/6", "ml-5/6", "ml-1/12",
    "border", "border-0", "border-1", "border-2", "border-3", "border-4",
    "border-5", "border-6", "border-8", "border-10", "border-12", "border-16",
    "border-20", "border-24", "border-32", "border-t", "border-t-0", "border-t-1",
    "border-t-2", "border-t-3", "border-t-4", "border-t-5", "border-t-6", "border-t-8",
    "border-t-10", "border-t-12", "border-t-16", "border-t-20", "border-t-24", "border-t-32",
    "border-r", "border-r-0", "border-r-1", "border-r-2", "border-r-3", "border-r-4",
    "border-r-5", "border-r-6", "border-r-8", "border-r-10", "border-r-12", "border-r-16",
    "border-r-20", "border-r-24", "border-r-32", "border-b", "border-b-0", "border-b-1",
    "border-b-2", "border-b-3", "border-b-4", "border-b-5", "border-b-6", "border-b-8",
    "border-b-10", "border-b-12", "border-b-16", "border-b-20", "border-b-24", "border-b-32",
    "border-l", "border-l-0", "border-l-1", "border-l-2", "border-l-3", "border-l-4",
    "border-l-5", "border-l-6", "border-l-8", "border-l-10", "border-l-12", "border-l-16",
    "border-l-20", "border-l-24", "border-l-32", "rounded-none", "rounded-sm", "rounded-md",
    "rounded-lg", "rounded-xl", "rounded-2xl", "rounded-3xl", "rounded-full", "rounded-t-none",
    "rounded-t-sm", "rounded-t-md", "rounded-t-lg", "rounded-t-xl", "rounded-t-2xl", "rounded-t-3xl",
    "rounded-t-full", "rounded-r-none", "rounded-r-sm", "rounded-r-md", "rounded-r-lg", "rounded-r-xl",
    "rounded-r-2xl", "rounded-r-3xl", "rounded-r-full", "rounded-b-none", "rounded-b-sm", "rounded-b-md",
    "rounded-b-lg", "rounded-b-xl", "rounded-b-2xl", "rounded-b-3xl", "rounded-b-full", "rounded-l-none",
    "rounded-l-sm", "rounded-l-md", "rounded-l-lg", "rounded-l-xl", "rounded-l-2xl", "rounded-l-3xl",
    "rounded-l-full", "rounded-tl-none", "rounded-tl-sm", "rounded-tl-md", "rounded-tl-lg", "rounded-tl-xl",
    "rounded-tl-2xl", "rounded-tl-3xl", "rounded-tl-full", "rounded-tr-none", "rounded-tr-sm", "rounded-tr-md",
    "rounded-tr-lg", "rounded-tr-xl", "rounded-tr-2xl", "rounded-tr-3xl", "rounded-tr-full", "rounded-br-none",
    "rounded-br-sm", "rounded-br-md", "rounded-br-lg", "rounded-br-xl", "rounded-br-2xl", "rounded-br-3xl",
    "rounded-br-full", "rounded-bl-none", "rounded-bl-sm", "rounded-bl-md", "rounded-bl-lg", "rounded-bl-xl",
    "rounded-bl-2xl", "rounded-bl-3xl", "rounded-bl-full", "font-thin", "font-extralight", "font-light",
    "font-normal", "font-medium", "font-semibold", "font-bold", "font-extrabold", "font-black",
    "text-xs", "text-sm", "text-base", "text-lg", "text-xl", "text-2xl",
    "text-3xl", "size-0", "size-0.5", "size-1", "size-1.5", "size-2",
    "size-2.5", "size-3", "size-3.5", "size-4", "size-5", "size-6",
    "size-8", "size-10", "size-12", "size-16", "size-20", "size-24",
    "size-32", "size-40", "size-48", "size-56", "size-64", "size-72",
    "size-80", "size-96", "size-1/2", "size-1/3", "size-2/3", "size-1/4",
    "size-2/4", "size-3/4", "size-1/5", "size-2/5", "size-3/5", "size-4/5",
    "size-1/6", "size-5/6", "size-1/12", "size-full", "size-auto"]

/-- The style-mutation state accumulated on a gpui element by
`set_attributes` (tree.rs lines 185-333).  Dynamic rules are modelled by
their concrete fields (`rounded_t` sets the two top corner radii, etc.,
following gpui's `Styled` methods); a static-table hit appends its token
to `statics`, modelling the 1:1 dedicated method call the macro generates
for it. -/
structure Style where
  fontFam : Option String := none
  bg : Option Rgba := none
  textColor : Option Rgba := none
  borderColor : Option Rgba := none
  radTL : Option AbsoluteLength := none
  radTR : Option AbsoluteLength := none
  radBR : Option AbsoluteLength := none
  radBL : Option AbsoluteLength := none
  borderT : Option AbsoluteLength := none
  borderR : Option AbsoluteLength := none
  borderB : Option AbsoluteLength := none
  borderL : Option AbsoluteLength := none
  statics : List String := []
deriving DecidableEq, Repr

def defaultStyle : Style := {}

/-- `p` is a prefix of `s` (own recursion, mirroring `str::starts_with`). -/
def listStarts : List Char → List Char → Bool
  | [], _ => true
  | _ :: _, [] => false
  | a :: as, b :: bs => a == b && listStarts as bs

def strStarts (p s : String) : Bool := listStarts p.data s.data

/-- `&class_name[pre.len() .. class_name.len() - 1]`: drop the prefix and
the final character (the closing `]`). -/
def bracketArg (pre token : String) : String :=
  ⟨(token.data.drop pre.data.length).dropLast⟩

/-- `suffix.split('-').next()`: the part of the string before the first
`-` (the whole string when there is no `-`). -/
def firstDashCode (s : String) : String :=
  ⟨s.data.takeWhile (fun c => c != '-')⟩

/-- One step of the per-token style resolution (tree.rs lines 201-328):
first the exact-match static table, then the dynamic chain in source
order: `bg-[#`, `text-color-[#`, `border-[#`, `rounded-`, `border-`, and
finally the unrecognized-class no-op.  `none` models the panic of
`hex_to_rgba` on malformed hex. -/
def applyClass (st : Style) (token : String) : Option Style :=
  if token ∈ staticClasses then some {st with statics := st.statics ++ [token]}
  else if strStarts "bg-[#" token then
    (hex_to_rgba (bracketArg "bg-[#" token)).map fun c => {st with bg := some c}
  else if strStarts "text-color-[#" token then
    (hex_to_rgba (bracketArg "text-color-[#" token)).map fun c => {st with textColor := some c}
  else if strStarts "border-[#" token then
    (hex_to_rgba (bracketArg "border-[#" token)).map fun c => {st with borderColor := some c}
  else if strStarts "rounded-" token then
    let suffix := (⟨token.data.drop 8⟩ : String)
    let len := extract_length_from_class_name suffix
    let code := firstDashCode suffix
    some (if code = "t" then {st with radTL := some len, radTR := some len}
      else if code = "r" then {st with radTR := some len, radBR := some len}
      else if code = "b" then {st with radBR := some len, radBL := some len}
      else if code = "l" then {st with radTL := some len, radBL := some len}
      else if code = "tl" then {st with radTL := some len}
      else if code = "tr" then {st with radTR := some len}
      else if code = "br" then {st with radBR := some len}
      else if code = "bl" then {st with radBL := some len}
      else {st with radTL := some len, radTR := some len,
                    radBR := some len, radBL := some len})
  else if strStarts "border-" token then
    let suffix := (⟨token.data.drop 7⟩ : String)
    let len := extract_length_from_class_name suffix
    let code := firstDashCode suffix
    some (if code = "t" then {st with borderT := some len}
      else if code = "r" then {st with borderR := some len}
      else if code = "b" then {st with borderB := some len}
      else if code = "l" then {st with borderL := some len}
      else {st with radTL := some len, radTR := some len,
                    radBR := some len, radBL := some len})
  else some st

/-- Apply the class tokens left to right; a panic in any token aborts the
whole application. -/
def applyClassList : Style → List String → Option Style
  | st, [] => some st
  | st, c :: cs =>
    match applyClass st c with
    | none => none
    | some st2 => applyClassList st2 cs

/-- `str::split_whitespace`: maximal runs of non-whitespace characters. -/
def splitWsAux : List Char → List Char → List String
  | [], acc => if acc.isEmpty then [] else [⟨acc.reverse⟩]
  | c :: rest, acc =>
    if c.isWhitespace then
      if acc.isEmpty then splitWsAux rest []
      else (⟨acc.reverse⟩ : String) :: splitWsAux rest []
    else splitWsAux rest (c :: acc)

def split_whitespace (s : String) : List String := splitWsAux s.data []

/-- `attributes.iter().find(|(k, _)| k == key)`: the value of the *first*
attribute with the given name, in document order. -/
def findAttr (attrs : List (String × String)) (k : String) : Option String :=
  (attrs.find? (fun p => p.1 == k)).map (fun p => p.2)

/-- `set_attributes` (tree.rs lines 185-333): the `font` attribute (first
occurrence) is applied first, then every token of the `class` attribute
(first occurrence), left to right. -/
def set_attributes (st : Style) (attrs : List (String × String)) : Option Style :=
  let st1 := match findAttr attrs "font" with
    | some f => {st with fontFam := some f}
    | none => st
  match findAttr attrs "class" with
  | some cv => applyClassList st1 (split_whitespace cv)
  | none => some st1

/-- The rendered element tree.  The top-level constructors mirror
`ComponentType::{Div, Img, Svg}` (tree.rs lines 98-102); `text` is a
literal text child of a container (`element.child(string)`). -/
inductive RNode where
  | div (style : Style) (children : List RNode)
  | text (s : String)
  | img (style : Style) (src : String)
  | svg (style : Style) (path : String)

/-- The trailing literal text child a `div` gets when the node has text
(tree.rs lines 121-124). -/
def textTail : Option String → List RNode
  | some s => [RNode.text s]
  | none => []

mutual

/-- `render_component` (tree.rs lines 104-165).  For `"div"`: render the
children recursively, attach them one by one in order (the `for` loop of
`element.child(..)` calls, modelled by the `foldl`), append the node's
text if present, then apply `set_attributes`.  For `"img"`/`"svg"`: look
up the first `src`/`path` attribute; when present build the element and
apply `set_attributes`, when missing fall back to a container with the
literal diagnostic text child (no attributes applied).  Any other tag is
an empty unstyled container.  `none` models a panic (malformed hex in a
class token). -/
def render_component : Component → Option RNode
  | .mk e t a ch =>
    if e = "div" then
      match renderChildren ch with
      | none => none
      | some kids =>
        let attached := kids.foldl (fun acc k => acc ++ [k]) []
        let withText := attached ++ textTail t
        match set_attributes defaultStyle a with
        | none => none
        | some st => some (RNode.div st withText)
    else if e = "img" then
      match findAttr a "src" with
      | some src =>
        match set_attributes defaultStyle a with
        | none => none
        | some st => some (RNode.img st src)
      | none => some (RNode.div defaultStyle
          [RNode.text "Error: img element must have src attribute"])
    else if e = "svg" then
      match findAttr a "path" with
      | some p =>
        match set_attributes defaultStyle a with
        | none => none
        | some st => some (RNode.svg st p)
      | none => some (RNode.div defaultStyle
          [RNode.text "Error: img element must have src attribute"])
    else some (RNode.div defaultStyle [])

/-- `component.children.iter().map(render_component)`, in order; a panic
anywhere aborts. -/
def renderChildren : List Component → Option (List RNode)
  | [] => some []
  | c :: cs =>
    match render_component c with
    | none => none
    | some r =>
      match renderChildren cs with
      | none => none
      | some rs => some (r :: rs)

end

/-- C1: an element-close event received while the builder's stack has
exactly one entry leaves the stack unchanged; a close event pops and
attaches the top node as the last child of the new top only when the
stack has more than one entry; hence no close event ever pops the
final/root frame (the stack never drops below one entry on a close). -/
theorem C1_close_never_pops_root :
    (∀ c : Component, parseStep [c] XmlEvent.close = [c]) ∧
    (∀ (top parent : Component) (rest : List Component),
      parseStep (top :: parent :: rest) XmlEvent.close = parent.pushChild top :: rest) ∧
    (∀ stack : List Component, 1 ≤ stack.length →
      1 ≤ (parseStep stack XmlEvent.close).length) := by
  refine ⟨fun c => rfl, fun top parent rest => ?_, fun stack h => ?_⟩
  · have hlen : (top :: parent :: rest).length > 1 := by
      simp [List.length_cons]
    simp only [parseStep, if_pos hlen]
  · match stack with
    | [] => simp at h
    | [c] => exact le_refl 1
    | a :: b :: t =>
      simp only [parseStep]
      split
      · simp only [List.length_cons]
        omega
      · simp only [List.length_cons]
        omega

/-- C1 witness: the theorem applied at a singleton stack. -/
theorem C1_close_never_pops_root_witness :
    1 ≤ ([errorComponent] : List Component).length ∧
    1 ≤ (parseStep [errorComponent] XmlEvent.close).length :=
  ⟨by decide, C1_close_never_pops_root.2.2 [errorComponent] (by decide)⟩

/-- C6: when the final pop finds an empty stack, `parse_xml` does not
fail: it returns the sentinel error node with tag `"error"`, text
`"error"`, no attributes and no children. -/
theorem C6_empty_final_pop_returns_sentinel :
    ∀ events : List XmlEvent, events.foldl parseStep [] = [] →
      parse_xml events = Component.mk "error" (some "error") [] [] := by
  intro es h
  unfold parse_xml
  rw [h]
  rfl

/-- C6 witness: a document whose only event is a stray close produces no
root, and the builder returns the sentinel. -/
theorem C6_empty_final_pop_returns_sentinel_witness :
    ([XmlEvent.close].foldl parseStep [] = []) ∧
    parse_xml [XmlEvent.close] = Component.mk "error" (some "error") [] [] :=
  ⟨rfl, C6_empty_final_pop_returns_sentinel [XmlEvent.close] rfl⟩

/-- C2 counterexample: the tree builder does *not* lower-case element
names.  Parsing a document whose root element is written `DIV` yields a
root node whose tag is `"DIV"`, not the lower-case form `"div"`. -/
theorem C2_counterexample_uppercase_tag_kept :
    parse_xml [XmlEvent.start "DIV" [], XmlEvent.close] = Component.mk "DIV" none [] [] ∧
    "DIV".data.map Char.toLower = "div".data ∧ ("DIV" : String) ≠ "div" :=
  ⟨rfl, by decide, by decide⟩

/-- C2 (amended): for every element-open event, the node constructed by
the tree builder has tag equal to the local element name exactly as
written (case preserved, namespace prefix up to the first `:` removed);
no lower-casing takes place, so an upper-case root element yields a root
node with the upper-case tag. -/
theorem C2_open_tag_is_verbatim_local_name :
    ∀ (name : String) (attrs : List (String × String)) (stack : List Component),
      parseStep stack (XmlEvent.start name attrs) = mkComponent name attrs :: stack ∧
      (mkComponent name attrs).elem = localName name ∧
      (parse_xml [XmlEvent.start name attrs, XmlEvent.close]).elem = localName name :=
  fun _ _ _ => ⟨rfl, rfl, rfl⟩

/-- C8: a self-closing element reaches the builder as a start event
immediately followed by a close event (`expand_empty_elements(true)`,
tree.rs line 19).  The node is built exactly as for an element-open
(same tag, same attributes, no text, no children) and is never left on
the stack awaiting a close: on a non-empty stack it ends up appended as
the last child of the current stack top, on an empty stack it becomes the
candidate root, and a document consisting of a single self-closing
element parses to a root node with that tag and empty children. -/
theorem C8_self_closing_element :
    ∀ (name : String) (attrs : List (String × String)),
      (∀ (top : Component) (rest : List Component),
        List.foldl parseStep (top :: rest) (expandEmptyElements [XmlEvent.empty name attrs]) =
          top.pushChild (mkComponent name attrs) :: rest) ∧
      (List.foldl parseStep [] (expandEmptyElements [XmlEvent.empty name attrs]) =
        [mkComponent name attrs]) ∧
      parse_xml (expandEmptyElements [XmlEvent.empty name attrs]) = mkComponent name attrs ∧
      (mkComponent name attrs).children = [] := by
  intro name attrs
  refine ⟨fun top rest => ?_, rfl, rfl, rfl⟩
  show List.foldl parseStep (top :: rest) [XmlEvent.start name attrs, XmlEvent.close] = _
  show parseStep (parseStep (top :: rest) (XmlEvent.start name attrs)) XmlEvent.close = _
  show parseStep (mkComponent name attrs :: top :: rest) XmlEvent.close = _
  have hlen : (mkComponent name attrs :: top :: rest).length > 1 := by
    simp [List.length_cons]
  simp only [parseStep, if_pos hlen]


/-- C3 counterexample: on the suffix `"rem"` the numeric part is missing,
and the code yields 0 *rems*, not the 0 *pixels* the claim requires for
an unparsable/missing numeric part. -/
theorem C3_counterexample_rem :
    extract_length_from_class_name "rem" = AbsoluteLength.Rems 0 ∧
    AbsoluteLength.Rems 0 ≠ AbsoluteLength.Pixels 0 := by
  constructor
  · simp +decide [extract_length_from_class_name, parseDecimal, List.takeWhile, List.dropWhile]
  · decide

/-- C3 (amended): for every suffix string, the magnitude is parsed from
the maximal leading run of digits and dots (value 0 when that run has no
digit or more than one dot) and the unit is the remainder after that
run; unit `px` gives pixels and `rem` gives rems of that magnitude
(including 0 rems when the numeric part is unparsable), and any other
unit gives 0 pixels.  In particular `"4px"` is 4 pixels, `"2.5rem"` is
2.5 rems, `"4"` and `"xlpx"` are 0 pixels, and `"rem"` is 0 rems. -/
theorem C3_length_parsing_amended :
    (∀ s : String, extract_length_from_class_name s = extract_length_spec_amended s) ∧
    extract_length_from_class_name "4px" = AbsoluteLength.Pixels 4 ∧
    extract_length_from_class_name "2.5rem" = AbsoluteLength.Rems (5 / 2) ∧
    extract_length_from_class_name "4" = AbsoluteLength.Pixels 0 ∧
    extract_length_from_class_name "xlpx" = AbsoluteLength.Pixels 0 ∧
    extract_length_from_class_name "rem" = AbsoluteLength.Rems 0 := by
  refine ⟨?_, ?_, ?_, ?_, ?_, ?_⟩
  · intro s
    obtain ⟨cs⟩ := s
    match cs with
    | [] => rfl
    | c :: t =>
      by_cases hc : (c.isDigit || c == '.') = true
      · have hq : (!c.isDigit && c != '.') = false := by
          simp only [bne]
          rcases Bool.eq_false_or_eq_true c.isDigit with h1 | h1 <;>
            rcases Bool.eq_false_or_eq_true (c == '.') with h2 | h2 <;>
              simp [h1, h2] at hc ⊢
        simp only [extract_length_from_class_name, extract_length_spec_amended,
          List.dropWhile_cons, hq]
        simp
      · have hp : (c.isDigit || c == '.') = false := by
          revert hc
          cases c.isDigit || c == '.' <;> simp
        have hq : (!c.isDigit && c != '.') = true := by
          simp only [bne]
          rcases Bool.eq_false_or_eq_true c.isDigit with h1 | h1 <;>
            rcases Bool.eq_false_or_eq_true (c == '.') with h2 | h2 <;>
              simp [h1, h2] at hp ⊢
        by_cases hpx : c :: t = "px".data
        · rw [show (⟨c :: t⟩ : String) = "px" from congrArg String.mk hpx]
          rfl
        · by_cases hrem : c :: t = "rem".data
          · rw [show (⟨c :: t⟩ : String) = "rem" from congrArg String.mk hrem]
            rfl
          · simp only [extract_length_from_class_name, extract_length_spec_amended,
              List.dropWhile_cons, hp, hq]
            simp only [if_neg hpx, if_neg hrem, Bool.false_eq_true, if_false]
  · simp +decide [extract_length_from_class_name, parseDecimal, digitsVal,
      List.takeWhile, List.dropWhile]
  · simp +decide [extract_length_from_class_name, parseDecimal, digitsVal,
      List.takeWhile, List.dropWhile]
    norm_num
  · simp +decide [extract_length_from_class_name, parseDecimal, digitsVal,
      List.takeWhile, List.dropWhile]
  · simp +decide [extract_length_from_class_name, parseDecimal, List.takeWhile, List.dropWhile]
  · simp +decide [extract_length_from_class_name, parseDecimal, List.takeWhile, List.dropWhile]

theorem isHexDigitChar_ne_hash {c : Char} (h : isHexDigitChar c = true) : c ≠ '#' := by
  intro hc
  subst hc
  simp [isHexDigitChar] at h

theorem isHexDigitChar_ne_plus {c : Char} (h : isHexDigitChar c = true) : c ≠ '+' := by
  intro hc
  subst hc
  simp [isHexDigitChar] at h

theorem fromStrRadix16_all_hex (cs : List Char) (h1 : cs ≠ [])
    (h2 : cs.all isHexDigitChar = true) : fromStrRadix16 cs = some (hexVal cs) := by
  unfold fromStrRadix16
  have hhead : cs.head? ≠ some '+' := by
    match cs with
    | [] => exact absurd rfl h1
    | c :: t =>
      simp only [List.head?]
      intro hc
      have := List.all_eq_true.mp h2 c (List.mem_cons_self c t)
      exact isHexDigitChar_ne_plus this (by injection hc)
  rw [if_neg hhead]
  unfold radix16Digits
  rw [if_pos ⟨h1, h2⟩]

theorem hexCore_short (hex : List Char) (h : hex.length < 6) : hexCore hex = none := by
  have h46 : strSlice hex 4 6 = none := by
    unfold strSlice
    rw [if_neg (by omega)]
  unfold hexCore
  cases hr : strSlice hex 0 2 >>= fromStrRadix16 <;>
    cases hg : strSlice hex 2 4 >>= fromStrRadix16 <;>
      simp [hr, hg, h46]

theorem dropWhile_hash_all_hex (ds : List Char) (h : ds.all isHexDigitChar = true) :
    ds.dropWhile (fun c => c = '#') = ds := by
  match ds with
  | [] => rfl
  | c :: t =>
    have hc := List.all_eq_true.mp h c (List.mem_cons_self c t)
    rw [List.dropWhile_cons_of_neg]
    simp only [decide_eq_true_eq]
    exact isHexDigitChar_ne_hash hc

theorem strSlice_of_le (ds : List Char) (a b : Nat) (h : b ≤ ds.length) :
    strSlice ds a b = some ((ds.drop a).take (b - a)) := by
  unfold strSlice
  rw [if_pos h]

theorem segment_all_hex (ds : List Char) (h2 : ds.all isHexDigitChar = true) (a k : Nat) :
    ((ds.drop a).take k).all isHexDigitChar = true :=
  List.all_eq_true.mpr fun c hc =>
    List.all_eq_true.mp h2 c (List.drop_subset a ds (List.take_subset k _ hc))

theorem segment_ne_nil (ds : List Char) (a k : Nat) (hk : 0 < k) (ha : a < ds.length) :
    (ds.drop a).take k ≠ [] := by
  have : ((ds.drop a).take k).length = min k (ds.length - a) := by
    simp [List.length_take, List.length_drop]
  intro hnil
  rw [hnil] at this
  simp only [List.length_nil] at this
  omega

theorem hexCore_reads (ds : List Char) (h2 : ds.all isHexDigitChar = true)
    (h6 : 6 ≤ ds.length) :
    hexCore ds =
      if ds.length = 8 then
        some ⟨hexVal (ds.take 2), hexVal ((ds.drop 2).take 2),
              hexVal ((ds.drop 4).take 2), hexVal ((ds.drop 6).take 2)⟩
      else
        some ⟨hexVal (ds.take 2), hexVal ((ds.drop 2).take 2),
              hexVal ((ds.drop 4).take 2), 255⟩ := by
  have s02 := strSlice_of_le ds 0 2 (by omega)
  have s24 := strSlice_of_le ds 2 4 (by omega)
  have s46 := strSlice_of_le ds 4 6 (by omega)
  have p02 : fromStrRadix16 ((ds.drop 0).take (2 - 0)) = some (hexVal ((ds.drop 0).take (2 - 0))) :=
    fromStrRadix16_all_hex _ (segment_ne_nil ds 0 2 (by omega) (by omega))
      (segment_all_hex ds h2 0 2)
  have p24 : fromStrRadix16 ((ds.drop 2).take (4 - 2)) = some (hexVal ((ds.drop 2).take (4 - 2))) :=
    fromStrRadix16_all_hex _ (segment_ne_nil ds 2 2 (by omega) (by omega))
      (segment_all_hex ds h2 2 2)
  have p46 : fromStrRadix16 ((ds.drop 4).take (6 - 4)) = some (hexVal ((ds.drop 4).take (6 - 4))) :=
    fromStrRadix16_all_hex _ (segment_ne_nil ds 4 2 (by omega) (by omega))
      (segment_all_hex ds h2 4 2)
  by_cases h8 : ds.length = 8
  · have s68 := strSlice_of_le ds 6 8 (by omega)
    have p68 : fromStrRadix16 ((ds.drop 6).take (8 - 6)) =
        some (hexVal ((ds.drop 6).take (8 - 6))) :=
      fromStrRadix16_all_hex _ (segment_ne_nil ds 6 2 (by omega) (by omega))
        (segment_all_hex ds h2 6 2)
    simp only [List.drop_zero, Nat.sub_zero] at p02
    simp [hexCore, s02, s24, s46, s68, p02, p24, p46, p68, h8]
  · simp only [List.drop_zero, Nat.sub_zero] at p02
    simp [hexCore, s02, s24, s46, p02, p24, p46, h8]

/-- C5 counterexample: `"#000000!"` contains the non-hex character `!`,
yet parsing succeeds with `(0,0,0,255)` (the trailing character is never
read because the total length is 7, not 8) — it is not a fatal error. -/
theorem C5_counterexample_trailing_junk :
    hex_to_rgba "#000000!" = some ⟨0, 0, 0, 255⟩ ∧ isHexDigitChar '!' = false :=
  ⟨rfl, rfl⟩

/-- C5 (amended): hex colour parsing strips leading `#` and reads
characters 0-2, 2-4, 4-6 as red, green, blue (base 16) and, when exactly
8 characters are present, 6-8 as alpha, else alpha is 255; the claim's
three examples hold.  A failure of one of the reads actually
performed — too few characters, or a read component that is not a
base-16 numeral (optionally `+`-signed, as the underlying integer parser
accepts) — is a fatal error for the whole render, propagating through the
class-token loop instead of being recovered as an unrecognized class;
characters outside the read positions are ignored, not validated. -/
theorem C5_hex_parsing_amended :
    hex_to_rgba "#000000" = some ⟨0, 0, 0, 255⟩ ∧
    hex_to_rgba "#FF0000" = some ⟨255, 0, 0, 255⟩ ∧
    hex_to_rgba "#00FF0080" = some ⟨0, 255, 0, 128⟩ ∧
    (∀ ds : List Char, ds.length < 6 → hex_to_rgba ⟨ds⟩ = none) ∧
    (∀ ds : List Char, ds.all isHexDigitChar = true → 6 ≤ ds.length → ds.length ≠ 8 →
      hex_to_rgba ⟨'#' :: ds⟩ =
        some ⟨hexVal (ds.take 2), hexVal ((ds.drop 2).take 2),
              hexVal ((ds.drop 4).take 2), 255⟩) ∧
    (∀ ds : List Char, ds.all isHexDigitChar = true → ds.length = 8 →
      hex_to_rgba ⟨'#' :: ds⟩ =
        some ⟨hexVal (ds.take 2), hexVal ((ds.drop 2).take 2),
              hexVal ((ds.drop 4).take 2), hexVal ((ds.drop 6).take 2)⟩) ∧
    (∀ (st : Style) (token : String), token ∉ staticClasses →
      strStarts "bg-[#" token = true → hex_to_rgba (bracketArg "bg-[#" token) = none →
      applyClass st token = none) ∧
    (∀ (st : Style) (c : String) (cs : List String), applyClass st c = none →
      applyClassList st (c :: cs) = none) := by
  refine ⟨rfl, rfl, rfl, ?_, ?_, ?_, ?_, ?_⟩
  · intro ds h
    unfold hex_to_rgba
    exact hexCore_short _ (by
      have := (List.dropWhile_sublist (l := ds) (p := fun c => decide (c = '#'))).length_le
      simp only [String.data] at *
      omega)
  · intro ds h2 h6 h8
    unfold hex_to_rgba
    have hdrop : ('#' :: ds).dropWhile (fun c => decide (c = '#')) =
        ds.dropWhile (fun c => decide (c = '#')) := by
      rw [List.dropWhile_cons_of_pos]
      simp
    simp only [String.data, hdrop, dropWhile_hash_all_hex ds h2]
    rw [hexCore_reads ds h2 h6, if_neg h8]
  · intro ds h2 h8
    unfold hex_to_rgba
    have hdrop : ('#' :: ds).dropWhile (fun c => decide (c = '#')) =
        ds.dropWhile (fun c => decide (c = '#')) := by
      rw [List.dropWhile_cons_of_pos]
      simp
    simp only [String.data, hdrop, dropWhile_hash_all_hex ds h2]
    rw [hexCore_reads ds h2 (by omega), if_pos h8]
  · intro st token hmem hbg hnone
    unfold applyClass
    rw [if_neg hmem, if_pos hbg, hnone]
    rfl
  · intro st c cs hnone
    unfold applyClassList
    rw [hnone]

/-- C5 witness: the amended theorem applied at concrete inputs — a bad
hex colour token aborts the class application. -/
theorem C5_hex_parsing_amended_witness :
    (("bg-[#GG0000]" : String) ∉ staticClasses ∧
      strStarts "bg-[#" "bg-[#GG0000]" = true ∧
      hex_to_rgba (bracketArg "bg-[#" "bg-[#GG0000]") = none) ∧
    applyClass defaultStyle "bg-[#GG0000]" = none :=
  ⟨⟨by decide, rfl, rfl⟩,
    C5_hex_parsing_amended.2.2.2.2.2.2.1 defaultStyle "bg-[#GG0000]" (by decide) rfl rfl⟩

/-- C4: for every class token of the form `border-<suffix>` that matches
no exact-match static entry and does not start with `border-[#`, the
dynamic border rule applies: if the suffix's leading dash-separated code
is `t`, `r`, `b` or `l`, the parsed length becomes that edge's border
width; for any other (or absent) side code the parsed length is instead
applied as a uniform corner radius on all four corners (the documented
fallback inconsistency).  The token falls through the `bg-[#`,
`text-color-[#`, `border-[#` and `rounded-` prefix rules (tried in that
order) before reaching this rule: the first three fail because the token
starts with `border-` but not `border-[#`, and `rounded-` fails because
the token starts with `b`, not `r`. -/
theorem C4_border_width_dynamic_rule :
    ∀ (st : Style) (suffix : String),
      ("border-" ++ suffix) ∉ staticClasses →
      strStarts "[#" suffix = false →
      applyClass st ("border-" ++ suffix) =
        some (let len := extract_length_from_class_name suffix
              let code := firstDashCode suffix
              if code = "t" then {st with borderT := some len}
              else if code = "r" then {st with borderR := some len}
              else if code = "b" then {st with borderB := some len}
              else if code = "l" then {st with borderL := some len}
              else {st with radTL := some len, radTR := some len,
                            radBR := some len, radBL := some len}) := by
  intro st suffix hmem hbr
  obtain ⟨d⟩ := suffix
  unfold applyClass
  rw [if_neg hmem]
  have hbg : ¬ (strStarts "bg-[#" ("border-" ++ ⟨d⟩) = true) := fun h =>
    Bool.false_ne_true h
  have htc : ¬ (strStarts "text-color-[#" ("border-" ++ ⟨d⟩) = true) := fun h =>
    Bool.false_ne_true h
  have hrd : ¬ (strStarts "rounded-" ("border-" ++ ⟨d⟩) = true) := fun h =>
    Bool.false_ne_true h
  have hbc : ¬ (strStarts "border-[#" ("border-" ++ ⟨d⟩) = true) := by
    show ¬ (listStarts ['[', '#'] d = true)
    intro h
    exact Bool.false_ne_true (hbr ▸ h)
  have hbd : strStarts "border-" ("border-" ++ ⟨d⟩) = true := rfl
  rw [if_neg hbg, if_neg htc, if_neg hbc, if_neg hrd, if_pos hbd]
  rfl

/-- C4 witness: the theorem at the concrete tokens `border-t-4px`
(side code `t`: top border width) and `border-4px` (no side code:
uniform corner radius). -/
theorem C4_border_width_dynamic_rule_witness :
    (("border-" ++ "t-4px" : String) ∉ staticClasses ∧ strStarts "[#" "t-4px" = false ∧
      applyClass defaultStyle ("border-" ++ "t-4px") =
        some {borderT := some (extract_length_from_class_name "t-4px")}) ∧
    (("border-" ++ "4px" : String) ∉ staticClasses ∧ strStarts "[#" "4px" = false ∧
      applyClass defaultStyle ("border-" ++ "4px") =
        some (let len := extract_length_from_class_name "4px"
              {radTL := some len, radTR := some len,
               radBR := some len, radBL := some len})) :=
  ⟨⟨by decide, rfl, C4_border_width_dynamic_rule defaultStyle "t-4px" (by decide) rfl⟩,
   ⟨by decide, rfl, C4_border_width_dynamic_rule defaultStyle "4px" (by decide) rfl⟩⟩

/-- C7: a node with tag `img` and no `src` attribute (and a node with tag
`svg` and no `path` attribute) renders without failing: the result is a
container with exactly one literal diagnostic text child in place of the
intended image (or vector graphic) element, with no attributes applied. -/
theorem C7_missing_attribute_fallback :
    (∀ (t : Option String) (a : List (String × String)) (ch : List Component),
      findAttr a "src" = none →
      render_component (Component.mk "img" t a ch) =
        some (RNode.div defaultStyle
          [RNode.text "Error: img element must have src attribute"])) ∧
    (∀ (t : Option String) (a : List (String × String)) (ch : List Component),
      findAttr a "path" = none →
      render_component (Component.mk "svg" t a ch) =
        some (RNode.div defaultStyle
          [RNode.text "Error: img element must have src attribute"])) := by
  constructor
  · intro t a ch h
    unfold render_component
    rw [if_neg (by decide : ¬ ("img" : String) = "div"), if_pos rfl, h]
  · intro t a ch h
    unfold render_component
    rw [if_neg (by decide : ¬ ("svg" : String) = "div"),
      if_neg (by decide : ¬ ("svg" : String) = "img"), if_pos rfl, h]

/-- C7 witness: the theorem at concrete attribute-less `img` and `svg`
nodes. -/
theorem C7_missing_attribute_fallback_witness :
    (findAttr [] "src" = none ∧
      render_component (Component.mk "img" none [] []) =
        some (RNode.div defaultStyle
          [RNode.text "Error: img element must have src attribute"])) ∧
    (findAttr [("class", "flex")] "path" = none ∧
      render_component (Component.mk "svg" none [("class", "flex")] []) =
        some (RNode.div defaultStyle
          [RNode.text "Error: img element must have src attribute"])) :=
  ⟨⟨rfl, C7_missing_attribute_fallback.1 none [] [] rfl⟩,
   ⟨rfl, C7_missing_attribute_fallback.2 none [("class", "flex")] [] rfl⟩⟩

theorem foldl_push_eq (l : List RNode) (init : List RNode) :
    l.foldl (fun acc k => acc ++ [k]) init = init ++ l := by
  induction l generalizing init with
  | nil => simp
  | cons c t ih => simp [List.foldl_cons, ih]

theorem renderChildren_spec (ch : List Component) (kids : List RNode)
    (h : renderChildren ch = some kids) :
    kids.length = ch.length ∧
    ∀ i (h1 : i < ch.length) (h2 : i < kids.length),
      render_component (ch.get ⟨i, h1⟩) = some (kids.get ⟨i, h2⟩) := by
  induction ch generalizing kids with
  | nil =>
    unfold renderChildren at h
    injection h with h
    subst h
    exact ⟨rfl, fun i h1 => absurd h1 (by simp)⟩
  | cons c cs ih =>
    unfold renderChildren at h
    cases hr : render_component c with
    | none => rw [hr] at h; exact absurd h (by simp)
    | some r =>
      rw [hr] at h
      cases hcs : renderChildren cs with
      | none => rw [hcs] at h; exact absurd h (by simp)
      | some rs =>
        rw [hcs] at h
        injection h with h
        subst h
        obtain ⟨hlen, hget⟩ := ih rs hcs
        refine ⟨by simp [hlen], ?_⟩
        intro i h1 h2
        match i with
        | 0 => exact hr
        | Nat.succ j =>
          exact hget j (by simpa using h1) (by simpa using h2)

/-- C9: rendering a `div` node renders all children recursively and
attaches them in document order (the i-th attached child is the render of
the i-th source child, at every depth by recursion), then appends the
node's text, when present, as a single trailing literal text child after
all element children, and the container's style is the one produced by
applying the attribute passthroughs and every class token in left-to-right
order (`set_attributes`). -/
theorem C9_div_children_order_text_then_style :
    ∀ (t : Option String) (a : List (String × String)) (ch : List Component)
      (kids : List RNode) (st : Style),
      renderChildren ch = some kids →
      set_attributes defaultStyle a = some st →
      render_component (Component.mk "div" t a ch) =
        some (RNode.div st (kids ++ textTail t)) ∧
      kids.length = ch.length ∧
      (∀ i (h1 : i < ch.length) (h2 : i < kids.length),
        render_component (ch.get ⟨i, h1⟩) = some (kids.get ⟨i, h2⟩)) := by
  intro t a ch kids st hk hs
  obtain ⟨hlen, hget⟩ := renderChildren_spec ch kids hk
  refine ⟨?_, hlen, hget⟩
  unfold render_component
  rw [if_pos rfl, hk]
  simp only [foldl_push_eq, hs, List.nil_append]

/-- C9 witness: the theorem at a concrete `div` with one `img` child,
text `"hello"` and classes `"flex flex-col"`. -/
theorem C9_div_children_order_text_then_style_witness :
    (renderChildren [Component.mk "img" none [("src", "a.png")] []] =
      some [RNode.img defaultStyle "a.png"] ∧
     set_attributes defaultStyle [("class", "flex flex-col")] =
      some {statics := ["flex", "flex-col"]}) ∧
    render_component
        (Component.mk "div" (some "hello") [("class", "flex flex-col")]
          [Component.mk "img" none [("src", "a.png")] []]) =
      some (RNode.div {statics := ["flex", "flex-col"]}
        ([RNode.img defaultStyle "a.png"] ++ textTail (some "hello"))) :=
  ⟨⟨rfl, rfl⟩,
    (C9_div_children_order_text_then_style (some "hello") [("class", "flex flex-col")]
      [Component.mk "img" none [("src", "a.png")] []]
      [RNode.img defaultStyle "a.png"] {statics := ["flex", "flex-col"]} rfl rfl).1⟩

theorem findAttr_first (pre post : List (String × String)) (k v : String)
    (h : ∀ p ∈ pre, p.1 ≠ k) :
    findAttr (pre ++ (k, v) :: post) k = some v := by
  unfold findAttr
  rw [List.find?_append]
  have hpre : List.find? (fun p => p.1 == k) pre = none :=
    List.find?_eq_none.mpr fun p hp => by simpa using h p hp
  rw [hpre]
  simp [List.find?_cons]

theorem findAttr_append_dup (a : List (String × String)) (k v q : String)
    (h : k ∈ a.map Prod.fst) :
    findAttr (a ++ [(k, v)]) q = findAttr a q := by
  unfold findAttr
  rw [List.find?_append]
  cases hq : List.find? (fun p => p.1 == q) a with
  | some p => rfl
  | none =>
    by_cases hqk : q = k
    · subst hqk
      obtain ⟨p, hp, hfst⟩ := List.mem_map.mp h
      have := List.find?_eq_none.mp hq p hp
      simp [hfst] at this
    · simp [List.find?_cons, Option.or, Ne.symm hqk, beq_false_of_ne (Ne.symm hqk)]

theorem set_attributes_append_dup (st : Style) (a : List (String × String))
    (k v : String) (h : k ∈ a.map Prod.fst) :
    set_attributes st (a ++ [(k, v)]) = set_attributes st a := by
  unfold set_attributes
  rw [findAttr_append_dup a k v "font" h, findAttr_append_dup a k v "class" h]

/-- C10: lookups of `src` (img), `path` (svg), `font` and `class` use the
*first* occurrence of the attribute name in document order, and a later
duplicate of an attribute name that already occurs is ignored entirely:
appending it to a node's attribute list leaves the render unchanged, even
though the data model stores all duplicates. -/
theorem C10_duplicate_attributes_first_wins :
    (∀ (pre post : List (String × String)) (k v : String),
      (∀ p ∈ pre, p.1 ≠ k) →
      findAttr (pre ++ (k, v) :: post) k = some v) ∧
    (∀ (e : String) (t : Option String) (a : List (String × String))
      (ch : List Component) (k v : String),
      k ∈ a.map Prod.fst →
      render_component (Component.mk e t (a ++ [(k, v)]) ch) =
        render_component (Component.mk e t a ch)) := by
  refine ⟨findAttr_first, ?_⟩
  intro e t a ch k v h
  unfold render_component
  simp only [set_attributes_append_dup defaultStyle a k v h,
    findAttr_append_dup a k v "src" h, findAttr_append_dup a k v "path" h]

/-- C10 witness: the theorem at an `img` node carrying a duplicate `src`
attribute — only the first `src` value is used. -/
theorem C10_duplicate_attributes_first_wins_witness :
    (findAttr ([("class", "flex")] ++ ("src", "a.png") :: []) "src" = some "a.png") ∧
    render_component (Component.mk "img" none ([("src", "a.png")] ++ [("src", "b.png")]) []) =
      render_component (Component.mk "img" none [("src", "a.png")] []) ∧
    render_component (Component.mk "img" none [("src", "a.png"), ("src", "b.png")] []) =
      some (RNode.img defaultStyle "a.png") :=
  ⟨C10_duplicate_attributes_first_wins.1 [("class", "flex")] [] "src" "a.png"
      (by decide),
   C10_duplicate_attributes_first_wins.2 "img" none [("src", "a.png")] [] "src" "b.png"
      (by decide),
   rfl⟩
